import Mathlib

/-!
# MSXImage: compressor selection and export sinks

A shallow embedding of the parts of `src/CMSXimg.cpp` (function `main`) and
`src/exporter.h` (the `Compressor` enumeration and the exporter classes) that
decide which compressor is used and how many bytes a sink reports.

Conventions: `i32` values are `Int`, `u8`/`u16`/`u32` values are `Nat` reduced
with an explicit `%` where the C++ type truncates, `std::string` is `String`,
`std::vector<u8>` is `List Nat`.
-/

namespace MSXImage

/-! ## exporter.h: enum Compressor -/

/-- The ten compression modes of `enum Compressor`. -/
inductive Compressor
  | COMPRESS_None
  | COMPRESS_Crop16
  | COMPRESS_Crop32
  | COMPRESS_Crop256
  | COMPRESS_CropLine16
  | COMPRESS_CropLine32
  | COMPRESS_CropLine256
  | COMPRESS_RLE0
  | COMPRESS_RLE4
  | COMPRESS_RLE8
  deriving DecidableEq, Repr

open Compressor

/-- Bits mask `COMPRESS_CropLine_Mask = 0b00001000`. -/
def COMPRESS_CropLine_Mask : Nat := 0b00001000

/-- Bits mask `COMPRESS_Crop_Mask = 0b00001111`. -/
def COMPRESS_Crop_Mask : Nat := 0b00001111

/-- Bits mask `COMPRESS_RLE_Mask = 0b00110000`. -/
def COMPRESS_RLE_Mask : Nat := 0b00110000

/-- The enumerator value of each compression mode. -/
def Compressor.val : Compressor → Nat
  | COMPRESS_None => 0b00000000
  | COMPRESS_Crop16 => 0b00000001
  | COMPRESS_Crop32 => 0b00000010
  | COMPRESS_Crop256 => 0b00000011
  | COMPRESS_CropLine16 => 0b00000001 ||| COMPRESS_CropLine_Mask
  | COMPRESS_CropLine32 => 0b00000010 ||| COMPRESS_CropLine_Mask
  | COMPRESS_CropLine256 => 0b00000011 ||| COMPRESS_CropLine_Mask
  | COMPRESS_RLE0 => 0b00010000
  | COMPRESS_RLE4 => 0b00100000
  | COMPRESS_RLE8 => 0b00110000

/-! ## exporter.h / CMSXimg.cpp: struct ExportParameters -/

/-- The fields of `ExportParameters` that `main` and the exporters read. -/
structure ExportParameters where
  inFile : String
  outFile : String
  tabName : String
  posX : Int
  posY : Int
  sizeX : Int
  sizeY : Int
  numX : Int
  numY : Int
  bpc : Int
  bUseTrans : Bool
  transColor : Nat
  palCount : Int
  comp : Compressor
  bSkipEmpty : Bool
  bAddCopy : Bool := false
  copyFile : String := ""
  deriving DecidableEq, Repr

/-! ## CMSXimg.cpp, main: automatic compressor selection (`-compress auto`) -/

/-- The body of `if (bAutoCompress) { ... }` in `main`: the parameters after
the block has run. -/
def autoCompress (param : ExportParameters) : ExportParameters :=
  let param := { param with comp := COMPRESS_None }
  if param.sizeX ≠ 0 ∧ param.sizeY ≠ 0 then
    if param.bUseTrans then
      if param.bpc = 1 ∨ param.bpc = 2 then
        if param.sizeX ≤ 16 ∧ param.sizeY ≤ 16 then
          { param with comp := COMPRESS_Crop16 }
        else if param.sizeX ≤ 32 ∧ param.sizeY ≤ 32 then
          { param with comp := COMPRESS_Crop32 }
        else if param.sizeX ≤ 256 ∧ param.sizeY ≤ 256 then
          { param with comp := COMPRESS_Crop256 }
        else param
      else
        if param.sizeX ≤ 16 ∧ param.sizeY ≤ 16 then
          { param with comp := COMPRESS_CropLine16 }
        else if param.sizeX ≤ 32 ∧ param.sizeY ≤ 32 then
          { param with comp := COMPRESS_CropLine32 }
        else if param.sizeX ≤ 256 ∧ param.sizeY ≤ 256 then
          { param with comp := COMPRESS_CropLine256 }
        else param
    else
      if param.bpc = 4 then
        { param with comp := COMPRESS_RLE4 }
      else param
  else param

/-- The selection table as the specification words it: keyed on the block
size, the transparency flag and the colour depth, with the crop-line family
reserved for depths 4 and 8 and `COMPRESS_None` for every other combination. -/
def autoTableSpec (sizeX sizeY : Int) (bUseTrans : Bool) (bpc : Int) : Compressor :=
  if sizeX = 0 ∨ sizeY = 0 then COMPRESS_None
  else if bUseTrans = true ∧ (bpc = 1 ∨ bpc = 2) then
    if max sizeX sizeY ≤ 16 then COMPRESS_Crop16
    else if max sizeX sizeY ≤ 32 then COMPRESS_Crop32
    else if max sizeX sizeY ≤ 256 then COMPRESS_Crop256
    else COMPRESS_None
  else if bUseTrans = true ∧ (bpc = 4 ∨ bpc = 8) then
    if max sizeX sizeY ≤ 16 then COMPRESS_CropLine16
    else if max sizeX sizeY ≤ 32 then COMPRESS_CropLine32
    else if max sizeX sizeY ≤ 256 then COMPRESS_CropLine256
    else COMPRESS_None
  else if bUseTrans = false ∧ bpc = 4 then COMPRESS_RLE4
  else COMPRESS_None

/-! ## CMSXimg.cpp, main: benchmark loop (`-compress best`) -/

/-- The candidate list `compTable` of the benchmark loop, in source order. -/
def compTable : List Compressor :=
  [ COMPRESS_None,
    COMPRESS_Crop16,
    COMPRESS_CropLine16,
    COMPRESS_Crop32,
    COMPRESS_CropLine32,
    COMPRESS_Crop256,
    COMPRESS_CropLine256,
    COMPRESS_RLE0,
    COMPRESS_RLE4,
    COMPRESS_RLE8 ]

/-- What one iteration of the benchmark loop observes for its candidate:
the answer of `IsCompressorCompatible(param.comp, param)`, the answer of
`ParseImage(&param, exp)` on the counting exporter, and the value of
`exp->GetTotalBytes()` (a `u32`). Both functions are defined outside the
files at hand, so their answers are inputs of the loop. -/
structure PassResult where
  compatible : Bool
  succeed : Bool
  totalBytes : Nat
  deriving DecidableEq, Repr

/-- The two loop variables `bestSize` and `bestComp`. -/
structure BestState where
  bestSize : Nat
  bestComp : Compressor
  deriving DecidableEq, Repr

/-- One iteration of `for (i32 i = 0; i < numberof(compTable); i++)` for the
candidate `c`. -/
def bestStep (pass : Compressor → PassResult) (st : BestState) (c : Compressor) : BestState :=
  if (pass c).compatible then
    if (pass c).succeed then
      if st.bestSize = 0 ∨ (pass c).totalBytes < st.bestSize then
        { bestSize := (pass c).totalBytes, bestComp := c }
      else st
    else st
  else st

/-- The benchmark loop over a candidate table, from `bestSize = 0` and
`bestComp = COMPRESS_None`. -/
def bestLoop (pass : Compressor → PassResult) (table : List Compressor) : BestState :=
  table.foldl (bestStep pass) { bestSize := 0, bestComp := COMPRESS_None }

/-- The body of `if (bBestCompress) { ... }` in `main`: the loop over
`compTable`, then `param.comp = bestComp`. -/
def bestCompress (pass : Compressor → PassResult) (param : ExportParameters) : ExportParameters :=
  { param with comp := (bestLoop pass compTable).bestComp }

/-- A candidate that takes part in the comparison: compatible and parsed
successfully. -/
def PassResult.counted (r : PassResult) : Bool :=
  r.compatible && r.succeed

/-! ## CMSXimg.cpp, main: parameter validation -/

/-- The four compressor corrections of the validation block, in source order:
crop without transparency, RLE0 without transparency, RLE at 1 or 2 bits,
RLE4 at 8 bits. -/
def validateCompressor (param : ExportParameters) : ExportParameters :=
  let param :=
    if !param.bUseTrans ∧ (param.comp.val &&& COMPRESS_Crop_Mask) ≠ 0 then
      { param with comp := COMPRESS_None }
    else param
  let param :=
    if !param.bUseTrans ∧ param.comp = COMPRESS_RLE0 then
      { param with comp := COMPRESS_None }
    else param
  let param :=
    if (param.bpc = 1 ∨ param.bpc = 2) ∧ (param.comp.val &&& COMPRESS_RLE_Mask) ≠ 0 then
      { param with comp := COMPRESS_None }
    else param
  let param :=
    if param.bpc = 8 ∧ param.comp = COMPRESS_RLE4 then
      { param with comp := COMPRESS_RLE8 }
    else param
  param

/-- Membership in the crop family: `Crop16/32/256` and `CropLine16/32/256`. -/
def Compressor.isCrop : Compressor → Bool
  | COMPRESS_Crop16 | COMPRESS_Crop32 | COMPRESS_Crop256 => true
  | COMPRESS_CropLine16 | COMPRESS_CropLine32 | COMPRESS_CropLine256 => true
  | _ => false

/-- Membership in the RLE family: `RLE0`, `RLE4`, `RLE8`. -/
def Compressor.isRLE : Compressor → Bool
  | COMPRESS_RLE0 | COMPRESS_RLE4 | COMPRESS_RLE8 => true
  | _ => false

/-- The validated compressor as the specification words it: incompatible
requests become `COMPRESS_None`, RLE4 at 8 bits becomes RLE8, anything else is
kept. -/
def validatedSpec (bpc : Int) (bUseTrans : Bool) (c : Compressor) : Compressor :=
  if ((c.isCrop ∨ c = COMPRESS_RLE0) ∧ bUseTrans = false) ∨ (c.isRLE ∧ (bpc = 1 ∨ bpc = 2)) then
    COMPRESS_None
  else if c = COMPRESS_RLE4 ∧ bpc = 8 then COMPRESS_RLE8
  else c

/-! ## exporter.h: the exporter interface and its four implementations -/

/-- Conversion of a natural number to `u8`. -/
def u8 (n : Nat) : Nat := n % 2 ^ 8

/-- Conversion of a natural number to `u16`. -/
def u16 (n : Nat) : Nat := n % 2 ^ 16

/-- Conversion of a natural number to `u32`. -/
def u32 (n : Nat) : Nat := n % 2 ^ 32

/-- Format of the data, `enum DataFormat`. -/
inductive DataFormat
  | DATA_Decimal
  | DATA_Hexa
  | DATA_HexaC
  | DATA_HexaAsm
  | DATA_HexaDollar
  | DATA_HexaSharp
  | DATA_Binary
  deriving DecidableEq, Repr

open DataFormat

/-- One call of a writing method of `ExporterInterface`, with its arguments
(`u8` and `u16` arguments are converted at the call). -/
inductive SinkCall
  | WriteHeader
  | WriteTableBegin (name comment : String)
  | WriteSpriteHeader (number : Int)
  | Write1ByteLine (a : Nat) (comment : String)
  | Write2BytesLine (a b : Nat) (comment : String)
  | Write4BytesLine (a b c d : Nat) (comment : String)
  | Write1WordLine (a : Nat) (comment : String)
  | Write2WordsLine (a b : Nat) (comment : String)
  | WriteLineBegin
  | Write1ByteData (data : Nat)
  | Write8BitsData (data : Nat)
  | WriteLineEnd
  | WriteTableEnd (comment : String)
  deriving DecidableEq, Repr

/-! ### class ExporterBin -/

/-- The state of an `ExporterBin`: the members of `ExporterInterface` and the
byte vector `outData`. -/
structure ExporterBin where
  eFormat : DataFormat
  Param : ExportParameters
  TotalBytes : Nat
  outData : List Nat
  deriving DecidableEq, Repr

namespace ExporterBin

/-- The constructor `ExporterBin(f, p)`: `TotalBytes(0)` and an empty vector. -/
def create (f : DataFormat) (p : ExportParameters) : ExporterBin :=
  { eFormat := f, Param := p, TotalBytes := 0, outData := [] }

def WriteHeader (e : ExporterBin) : ExporterBin := e

def WriteTableBegin (e : ExporterBin) (_name _comment : String) : ExporterBin := e

def WriteSpriteHeader (e : ExporterBin) (_number : Int) : ExporterBin := e

def Write1ByteLine (e : ExporterBin) (a : Nat) (_comment : String) : ExporterBin :=
  { e with
    outData := e.outData ++ [u8 a],
    TotalBytes := u32 (e.TotalBytes + 1) }

def Write2BytesLine (e : ExporterBin) (a b : Nat) (_comment : String) : ExporterBin :=
  { e with
    outData := e.outData ++ [u8 a] ++ [u8 b],
    TotalBytes := u32 (e.TotalBytes + 2) }

def Write4BytesLine (e : ExporterBin) (a b c d : Nat) (_comment : String) : ExporterBin :=
  { e with
    outData := e.outData ++ [u8 a] ++ [u8 b] ++ [u8 c] ++ [u8 d],
    TotalBytes := u32 (e.TotalBytes + 4) }

def Write1WordLine (e : ExporterBin) (a : Nat) (_comment : String) : ExporterBin :=
  { e with
    outData := e.outData ++ [u8 (u16 a &&& 0x00FF)] ++ [u8 (u16 a >>> 8)],
    TotalBytes := u32 (e.TotalBytes + 2) }

def Write2WordsLine (e : ExporterBin) (a b : Nat) (_comment : String) : ExporterBin :=
  { e with
    outData := e.outData ++ [u8 (u16 a &&& 0x00FF)] ++ [u8 (u16 a >>> 8)]
      ++ [u8 (u16 b &&& 0x00FF)] ++ [u8 (u16 b >>> 8)],
    TotalBytes := u32 (e.TotalBytes + 4) }

def WriteLineBegin (e : ExporterBin) : ExporterBin := e

def Write1ByteData (e : ExporterBin) (data : Nat) : ExporterBin :=
  { e with
    outData := e.outData ++ [u8 data],
    TotalBytes := u32 (e.TotalBytes + 1) }

def Write8BitsData (e : ExporterBin) (data : Nat) : ExporterBin :=
  { e with
    outData := e.outData ++ [u8 data],
    TotalBytes := u32 (e.TotalBytes + 1) }

def WriteLineEnd (e : ExporterBin) : ExporterBin := e

def WriteTableEnd (e : ExporterBin) (_comment : String) : ExporterBin := e

/-- The inherited `GetTotalBytes()`. -/
def GetTotalBytes (e : ExporterBin) : Nat := e.TotalBytes

/-- The method `Export()`: `none` when the output file cannot be created (the
method returns `false`), otherwise the bytes handed to `fwrite`, that is
`outData.size()` bytes from `outData.data()` (the method returns `true`). -/
def Export (e : ExporterBin) (fopenSucceeds : Bool) : Option (List Nat) :=
  if fopenSucceeds then some e.outData else none

/-- Virtual dispatch of one call. -/
def call (e : ExporterBin) : SinkCall → ExporterBin
  | .WriteHeader => e.WriteHeader
  | .WriteTableBegin name comment => e.WriteTableBegin name comment
  | .WriteSpriteHeader number => e.WriteSpriteHeader number
  | .Write1ByteLine a comment => e.Write1ByteLine a comment
  | .Write2BytesLine a b comment => e.Write2BytesLine a b comment
  | .Write4BytesLine a b c d comment => e.Write4BytesLine a b c d comment
  | .Write1WordLine a comment => e.Write1WordLine a comment
  | .Write2WordsLine a b comment => e.Write2WordsLine a b comment
  | .WriteLineBegin => e.WriteLineBegin
  | .Write1ByteData data => e.Write1ByteData data
  | .Write8BitsData data => e.Write8BitsData data
  | .WriteLineEnd => e.WriteLineEnd
  | .WriteTableEnd comment => e.WriteTableEnd comment

/-- A sequence of calls on a freshly constructed exporter. -/
def run (f : DataFormat) (p : ExportParameters) (calls : List SinkCall) : ExporterBin :=
  calls.foldl call (create f p)

end ExporterBin

/-! ### class ExporterDummy -/

/-- The state of an `ExporterDummy`: the members of `ExporterInterface`. -/
structure ExporterDummy where
  eFormat : DataFormat
  Param : ExportParameters
  TotalBytes : Nat
  deriving DecidableEq, Repr

namespace ExporterDummy

/-- The constructor `ExporterDummy(f, p)`: `TotalBytes(0)`. -/
def create (f : DataFormat) (p : ExportParameters) : ExporterDummy :=
  { eFormat := f, Param := p, TotalBytes := 0 }

def WriteHeader (e : ExporterDummy) : ExporterDummy := e

def WriteTableBegin (e : ExporterDummy) (_name _comment : String) : ExporterDummy := e

def WriteSpriteHeader (e : ExporterDummy) (_number : Int) : ExporterDummy := e

def Write1ByteLine (e : ExporterDummy) (_a : Nat) (_comment : String) : ExporterDummy :=
  { e with TotalBytes := u32 (e.TotalBytes + 1) }

def Write2BytesLine (e : ExporterDummy) (_a _b : Nat) (_comment : String) : ExporterDummy :=
  { e with TotalBytes := u32 (e.TotalBytes + 2) }

def Write4BytesLine (e : ExporterDummy) (_a _b _c _d : Nat) (_comment : String) :
    ExporterDummy :=
  { e with TotalBytes := u32 (e.TotalBytes + 4) }

def Write1WordLine (e : ExporterDummy) (_a : Nat) (_comment : String) : ExporterDummy :=
  { e with TotalBytes := u32 (e.TotalBytes + 2) }

def Write2WordsLine (e : ExporterDummy) (_a _b : Nat) (_comment : String) : ExporterDummy :=
  { e with TotalBytes := u32 (e.TotalBytes + 4) }

def WriteLineBegin (e : ExporterDummy) : ExporterDummy := e

def Write1ByteData (e : ExporterDummy) (_data : Nat) : ExporterDummy :=
  { e with TotalBytes := u32 (e.TotalBytes + 1) }

def Write8BitsData (e : ExporterDummy) (_data : Nat) : ExporterDummy :=
  { e with TotalBytes := u32 (e.TotalBytes + 1) }

def WriteLineEnd (e : ExporterDummy) : ExporterDummy := e

def WriteTableEnd (e : ExporterDummy) (_comment : String) : ExporterDummy := e

/-- The inherited `GetTotalBytes()`. -/
def GetTotalBytes (e : ExporterDummy) : Nat := e.TotalBytes

/-- The method `Export()`, which writes nothing and returns `true`. -/
def Export (_e : ExporterDummy) : Bool := true

/-- Virtual dispatch of one call. -/
def call (e : ExporterDummy) : SinkCall → ExporterDummy
  | .WriteHeader => e.WriteHeader
  | .WriteTableBegin name comment => e.WriteTableBegin name comment
  | .WriteSpriteHeader number => e.WriteSpriteHeader number
  | .Write1ByteLine a comment => e.Write1ByteLine a comment
  | .Write2BytesLine a b comment => e.Write2BytesLine a b comment
  | .Write4BytesLine a b c d comment => e.Write4BytesLine a b c d comment
  | .Write1WordLine a comment => e.Write1WordLine a comment
  | .Write2WordsLine a b comment => e.Write2WordsLine a b comment
  | .WriteLineBegin => e.WriteLineBegin
  | .Write1ByteData data => e.Write1ByteData data
  | .Write8BitsData data => e.Write8BitsData data
  | .WriteLineEnd => e.WriteLineEnd
  | .WriteTableEnd comment => e.WriteTableEnd comment

/-- A sequence of calls on a freshly constructed exporter. -/
def run (f : DataFormat) (p : ExportParameters) (calls : List SinkCall) : ExporterDummy :=
  calls.foldl call (create f p)

end ExporterDummy

/-! ### class ExporterText and its subclasses ExporterC, ExporterASM -/

/-- An argument handed to `sprintf_s` after the format string. -/
inductive FormatArg
  | str (s : String)
  | int (i : Int)
  | uint (n : Nat)
  | chr (c : Char)
  deriving DecidableEq, Repr

/-- What the text exporters use and the files at hand do not define: the C
library formatter `sprintf_s` (buffer size, format string and arguments to the
text left in the buffer), the macro `VERSION` and the function
`GetCompressorName(comp, bShort)`. -/
structure TextRuntime where
  sprintf_s : Nat → String → List FormatArg → String
  VERSION : String
  GetCompressorName : Compressor → Bool → String

/-- The size of the scratch buffers `strFormat` and `strData`. -/
def BUFFER_SIZE : Nat := 1024

/-- The state of an `ExporterText`: the members of `ExporterInterface` and the
text `outData`. The scratch buffers `strFormat` and `strData` are overwritten
before every use and appear as local values of the methods. -/
structure ExporterText where
  eFormat : DataFormat
  Param : ExportParameters
  TotalBytes : Nat
  outData : String
  deriving DecidableEq, Repr

namespace ExporterText

/-- The inherited `GetTotalBytes()`. -/
def GetTotalBytes (e : ExporterText) : Nat := e.TotalBytes

/-- The method `Export()`: `none` when the output file cannot be created,
otherwise the text handed to `fwrite`. -/
def Export (e : ExporterText) (fopenSucceeds : Bool) : Option String :=
  if fopenSucceeds then some e.outData else none

end ExporterText

namespace ExporterC

/-- The constructor `ExporterC(f, p)`: `TotalBytes(0)` and an empty text. -/
def create (f : DataFormat) (p : ExportParameters) : ExporterText :=
  { eFormat := f, Param := p, TotalBytes := 0, outData := "" }

def GetNumberFormat (e : ExporterText) (bytes : Nat) : String :=
  match e.eFormat with
  | DATA_Decimal => "%3u"
  | DATA_Binary => if bytes = 1 then "0x%02X" else "0x%04X"
  | _ => if bytes = 1 then "0x%02X" else "0x%04X"

/-- The header comment. The argument `1 << Param->bpc` is `2 ^ bpc`, which is
the value of the shift for `0 ≤ bpc < 31`. -/
def WriteHeader (rt : TextRuntime) (e : ExporterText) : ExporterText :=
  let strData := rt.sprintf_s BUFFER_SIZE
    ("// Sprite table generated by MSXImage (v%s)\n"
      ++ "// - Input file:     %s\n"
      ++ "// - Start position: %i, %i\n"
      ++ "// - Sprite size:    %i, %i\n"
      ++ "// - Sprite count:   %i, %i\n"
      ++ "// - Color count:    %i (Transparent: #%04X)\n"
      ++ "// - Compressor:     %s\n"
      ++ "// - Skip empty:     %s\n")
    [.str rt.VERSION, .str e.Param.inFile, .int e.Param.posX, .int e.Param.posY,
     .int e.Param.sizeX, .int e.Param.sizeY, .int e.Param.numX, .int e.Param.numY,
     .int (2 ^ e.Param.bpc.toNat), .uint e.Param.transColor,
     .str (rt.GetCompressorName e.Param.comp false),
     .str (if e.Param.bSkipEmpty then "TRUE" else "FALSE")]
  { e with outData := e.outData ++ strData }

def WriteTableBegin (rt : TextRuntime) (e : ExporterText) (name comment : String) :
    ExporterText :=
  let strData := rt.sprintf_s BUFFER_SIZE
    ("\n"
      ++ "// %s\n"
      ++ "const unsigned char %s[] =\n"
      ++ "\x7b\n")
    [.str comment, .str name]
  { e with outData := e.outData ++ strData }

def WriteSpriteHeader (rt : TextRuntime) (e : ExporterText) (number : Int) : ExporterText :=
  let strData := rt.sprintf_s BUFFER_SIZE
    "// Sprite[%i] (offset:%i)\n" [.int number, .uint e.TotalBytes]
  { e with outData := e.outData ++ strData }

def Write4BytesLine (rt : TextRuntime) (e : ExporterText) (a b c d : Nat) (comment : String) :
    ExporterText :=
  let strFormat := rt.sprintf_s BUFFER_SIZE
    "\t%s, %s, %s, %s, // %s\n"
    [.str (GetNumberFormat e 1), .str (GetNumberFormat e 1), .str (GetNumberFormat e 1),
     .str (GetNumberFormat e 1), .str comment]
  let strData := rt.sprintf_s BUFFER_SIZE strFormat
    [.uint (u8 a), .uint (u8 b), .uint (u8 c), .uint (u8 d)]
  { e with outData := e.outData ++ strData, TotalBytes := u32 (e.TotalBytes + 4) }

def Write2BytesLine (rt : TextRuntime) (e : ExporterText) (a b : Nat) (comment : String) :
    ExporterText :=
  let strFormat := rt.sprintf_s BUFFER_SIZE
    "\t%s, %s, // %s\n"
    [.str (GetNumberFormat e 1), .str (GetNumberFormat e 1), .str comment]
  let strData := rt.sprintf_s BUFFER_SIZE strFormat [.uint (u8 a), .uint (u8 b)]
  { e with outData := e.outData ++ strData, TotalBytes := u32 (e.TotalBytes + 2) }

def Write1ByteLine (rt : TextRuntime) (e : ExporterText) (a : Nat) (comment : String) :
    ExporterText :=
  let strFormat := rt.sprintf_s BUFFER_SIZE
    "\t%s, // %s\n" [.str (GetNumberFormat e 1), .str comment]
  let strData := rt.sprintf_s BUFFER_SIZE strFormat [.uint (u8 a)]
  { e with outData := e.outData ++ strData, TotalBytes := u32 (e.TotalBytes + 1) }

def Write1WordLine (rt : TextRuntime) (e : ExporterText) (a : Nat) (comment : String) :
    ExporterText :=
  let strFormat := rt.sprintf_s BUFFER_SIZE
    "\t%s, // %s\n" [.str (GetNumberFormat e 2), .str comment]
  let strData := rt.sprintf_s BUFFER_SIZE strFormat [.uint (u16 a)]
  { e with outData := e.outData ++ strData, TotalBytes := u32 (e.TotalBytes + 2) }

def Write2WordsLine (rt : TextRuntime) (e : ExporterText) (a b : Nat) (comment : String) :
    ExporterText :=
  let strFormat := rt.sprintf_s BUFFER_SIZE
    "\t%s, %s, // %s\n"
    [.str (GetNumberFormat e 2), .str (GetNumberFormat e 2), .str comment]
  let strData := rt.sprintf_s BUFFER_SIZE strFormat [.uint (u16 a), .uint (u16 b)]
  { e with outData := e.outData ++ strData, TotalBytes := u32 (e.TotalBytes + 4) }

def WriteLineBegin (e : ExporterText) : ExporterText :=
  { e with outData := e.outData ++ "\t" }

def Write1ByteData (rt : TextRuntime) (e : ExporterText) (data : Nat) : ExporterText :=
  let strFormat := rt.sprintf_s BUFFER_SIZE "%s, " [.str (GetNumberFormat e 1)]
  let strData := rt.sprintf_s BUFFER_SIZE strFormat [.uint (u8 data)]
  { e with outData := e.outData ++ strData, TotalBytes := u32 (e.TotalBytes + 1) }

def Write8BitsData (rt : TextRuntime) (e : ExporterText) (data : Nat) : ExporterText :=
  let strFormat := rt.sprintf_s BUFFER_SIZE
    "%s, /* %%c%%c%%c%%c%%c%%c%%c%%c */ " [.str (GetNumberFormat e 1)]
  let strData := rt.sprintf_s BUFFER_SIZE strFormat
    [.uint (u8 data),
     .chr (if u8 data &&& 0x80 ≠ 0 then '#' else '.'),
     .chr (if u8 data &&& 0x40 ≠ 0 then '#' else '.'),
     .chr (if u8 data &&& 0x20 ≠ 0 then '#' else '.'),
     .chr (if u8 data &&& 0x10 ≠ 0 then '#' else '.'),
     .chr (if u8 data &&& 0x08 ≠ 0 then '#' else '.'),
     .chr (if u8 data &&& 0x04 ≠ 0 then '#' else '.'),
     .chr (if u8 data &&& 0x02 ≠ 0 then '#' else '.'),
     .chr (if u8 data &&& 0x01 ≠ 0 then '#' else '.')]
  { e with outData := e.outData ++ strData, TotalBytes := u32 (e.TotalBytes + 1) }

def WriteLineEnd (e : ExporterText) : ExporterText :=
  { e with outData := e.outData ++ "\n" }

def WriteTableEnd (rt : TextRuntime) (e : ExporterText) (comment : String) : ExporterText :=
  let e := { e with outData := e.outData ++ "\x7d;\n" }
  if comment ≠ "" then
    let strData := rt.sprintf_s BUFFER_SIZE "// %s\n" [.str comment]
    { e with outData := e.outData ++ strData }
  else e

/-- Virtual dispatch of one call. -/
def call (rt : TextRuntime) (e : ExporterText) : SinkCall → ExporterText
  | .WriteHeader => WriteHeader rt e
  | .WriteTableBegin name comment => WriteTableBegin rt e name comment
  | .WriteSpriteHeader number => WriteSpriteHeader rt e number
  | .Write1ByteLine a comment => Write1ByteLine rt e a comment
  | .Write2BytesLine a b comment => Write2BytesLine rt e a b comment
  | .Write4BytesLine a b c d comment => Write4BytesLine rt e a b c d comment
  | .Write1WordLine a comment => Write1WordLine rt e a comment
  | .Write2WordsLine a b comment => Write2WordsLine rt e a b comment
  | .WriteLineBegin => WriteLineBegin e
  | .Write1ByteData data => Write1ByteData rt e data
  | .Write8BitsData data => Write8BitsData rt e data
  | .WriteLineEnd => WriteLineEnd e
  | .WriteTableEnd comment => WriteTableEnd rt e comment

/-- A sequence of calls on a freshly constructed exporter. -/
def run (rt : TextRuntime) (f : DataFormat) (p : ExportParameters) (calls : List SinkCall) :
    ExporterText :=
  calls.foldl (call rt) (create f p)

end ExporterC

namespace ExporterASM

/-- The constructor `ExporterASM(f, p)`: `TotalBytes(0)` and an empty text. -/
def create (f : DataFormat) (p : ExportParameters) : ExporterText :=
  { eFormat := f, Param := p, TotalBytes := 0, outData := "" }

def GetNumberFormat (e : ExporterText) (bytes : Nat) : String :=
  match e.eFormat with
  | DATA_Hexa | DATA_HexaC => if bytes = 1 then "0x%02X" else "0x%04X"
  | DATA_HexaAsm => if bytes = 1 then "0%02Xh" else "0%04Xh"
  | DATA_HexaDollar => if bytes = 1 then "$%02X" else "$%04X"
  | DATA_HexaSharp => if bytes = 1 then "#%02X" else "#%02X"
  | DATA_Decimal | DATA_Binary => "%3u"

/-- The header comment. The argument `1 << Param->bpc` is `2 ^ bpc`, which is
the value of the shift for `0 ≤ bpc < 31`. -/
def WriteHeader (rt : TextRuntime) (e : ExporterText) : ExporterText :=
  let strData := rt.sprintf_s BUFFER_SIZE
    ("; Sprite table generated by MSXImage (v%s)\n"
      ++ "; - Input file:     %s\n"
      ++ "; - Start position: %i, %i\n"
      ++ "; - Sprite size:    %i, %i\n"
      ++ "; - Sprite count:   %i, %i\n"
      ++ "; - Color count:    %i (Transparent: #%04X)\n"
      ++ "; - Compressor:     %s\n"
      ++ "; - Skip empty:     %s\n")
    [.str rt.VERSION, .str e.Param.inFile, .int e.Param.posX, .int e.Param.posY,
     .int e.Param.sizeX, .int e.Param.sizeY, .int e.Param.numX, .int e.Param.numY,
     .int (2 ^ e.Param.bpc.toNat), .uint e.Param.transColor,
     .str (rt.GetCompressorName e.Param.comp false),
     .str (if e.Param.bSkipEmpty then "TRUE" else "FALSE")]
  { e with outData := e.outData ++ strData }

def WriteTableBegin (rt : TextRuntime) (e : ExporterText) (name comment : String) :
    ExporterText :=
  let strData := rt.sprintf_s BUFFER_SIZE
    ("\n"
      ++ "; %s\n"
      ++ "%s:\n")
    [.str comment, .str name]
  { e with outData := e.outData ++ strData }

def WriteSpriteHeader (rt : TextRuntime) (e : ExporterText) (number : Int) : ExporterText :=
  let strData := rt.sprintf_s BUFFER_SIZE
    "; Sprite[%i] (offset:%i)\n" [.int number, .uint e.TotalBytes]
  { e with outData := e.outData ++ strData }

def Write4BytesLine (rt : TextRuntime) (e : ExporterText) (a b c d : Nat) (comment : String) :
    ExporterText :=
  let strFormat := rt.sprintf_s BUFFER_SIZE
    "\t.db %s %s %s %s ; %s\n"
    [.str (GetNumberFormat e 1), .str (GetNumberFormat e 1), .str (GetNumberFormat e 1),
     .str (GetNumberFormat e 1), .str comment]
  let strData := rt.sprintf_s BUFFER_SIZE strFormat
    [.uint (u8 a), .uint (u8 b), .uint (u8 c), .uint (u8 d)]
  { e with outData := e.outData ++ strData, TotalBytes := u32 (e.TotalBytes + 4) }

def Write2BytesLine (rt : TextRuntime) (e : ExporterText) (a b : Nat) (comment : String) :
    ExporterText :=
  let strFormat := rt.sprintf_s BUFFER_SIZE
    "\t.db %s %s ; %s\n"
    [.str (GetNumberFormat e 1), .str (GetNumberFormat e 1), .str comment]
  let strData := rt.sprintf_s BUFFER_SIZE strFormat [.uint (u8 a), .uint (u8 b)]
  { e with outData := e.outData ++ strData, TotalBytes := u32 (e.TotalBytes + 2) }

def Write1ByteLine (rt : TextRuntime) (e : ExporterText) (a : Nat) (comment : String) :
    ExporterText :=
  let strFormat := rt.sprintf_s BUFFER_SIZE
    "\t.db %s ; %s\n" [.str (GetNumberFormat e 1), .str comment]
  let strData := rt.sprintf_s BUFFER_SIZE strFormat [.uint (u8 a)]
  { e with outData := e.outData ++ strData, TotalBytes := u32 (e.TotalBytes + 1) }

def Write1WordLine (rt : TextRuntime) (e : ExporterText) (a : Nat) (comment : String) :
    ExporterText :=
  let strFormat := rt.sprintf_s BUFFER_SIZE
    "\t.dw %s ; %s\n" [.str (GetNumberFormat e 2), .str comment]
  let strData := rt.sprintf_s BUFFER_SIZE strFormat [.uint (u16 a)]
  { e with outData := e.outData ++ strData, TotalBytes := u32 (e.TotalBytes + 2) }

def Write2WordsLine (rt : TextRuntime) (e : ExporterText) (a b : Nat) (comment : String) :
    ExporterText :=
  let strFormat := rt.sprintf_s BUFFER_SIZE
    "\t.dw %s %s ; %s\n"
    [.str (GetNumberFormat e 1), .str (GetNumberFormat e 1), .str comment]
  let strData := rt.sprintf_s BUFFER_SIZE strFormat [.uint (u16 a), .uint (u16 b)]
  { e with outData := e.outData ++ strData, TotalBytes := u32 (e.TotalBytes + 4) }

def WriteLineBegin (e : ExporterText) : ExporterText :=
  { e with outData := e.outData ++ "\t.db " }

def Write1ByteData (rt : TextRuntime) (e : ExporterText) (data : Nat) : ExporterText :=
  let strFormat := rt.sprintf_s BUFFER_SIZE "%s " [.str (GetNumberFormat e 1)]
  let strData := rt.sprintf_s BUFFER_SIZE strFormat [.uint (u8 data)]
  { e with outData := e.outData ++ strData, TotalBytes := u32 (e.TotalBytes + 1) }

def Write8BitsData (rt : TextRuntime) (e : ExporterText) (data : Nat) : ExporterText :=
  let strFormat := rt.sprintf_s BUFFER_SIZE "%s " [.str (GetNumberFormat e 1)]
  let strData := rt.sprintf_s BUFFER_SIZE strFormat [.uint (u8 data)]
  { e with outData := e.outData ++ strData, TotalBytes := u32 (e.TotalBytes + 1) }

def WriteLineEnd (e : ExporterText) : ExporterText :=
  { e with outData := e.outData ++ "\n" }

def WriteTableEnd (rt : TextRuntime) (e : ExporterText) (comment : String) : ExporterText :=
  if comment ≠ "" then
    let strData := rt.sprintf_s BUFFER_SIZE "; %s\n" [.str comment]
    { e with outData := e.outData ++ strData }
  else e

/-- Virtual dispatch of one call. -/
def call (rt : TextRuntime) (e : ExporterText) : SinkCall → ExporterText
  | .WriteHeader => WriteHeader rt e
  | .WriteTableBegin name comment => WriteTableBegin rt e name comment
  | .WriteSpriteHeader number => WriteSpriteHeader rt e number
  | .Write1ByteLine a comment => Write1ByteLine rt e a comment
  | .Write2BytesLine a b comment => Write2BytesLine rt e a b comment
  | .Write4BytesLine a b c d comment => Write4BytesLine rt e a b c d comment
  | .Write1WordLine a comment => Write1WordLine rt e a comment
  | .Write2WordsLine a b comment => Write2WordsLine rt e a b comment
  | .WriteLineBegin => WriteLineBegin e
  | .Write1ByteData data => Write1ByteData rt e data
  | .Write8BitsData data => Write8BitsData rt e data
  | .WriteLineEnd => WriteLineEnd e
  | .WriteTableEnd comment => WriteTableEnd rt e comment

/-- A sequence of calls on a freshly constructed exporter. -/
def run (rt : TextRuntime) (f : DataFormat) (p : ExportParameters) (calls : List SinkCall) :
    ExporterText :=
  calls.foldl (call rt) (create f p)

end ExporterASM

/-! ### Reading aids for the sink theorems -/

/-- The number of data bytes a call stands for: 1, 2 or 4 for the data-writing
methods and 0 for the framing methods. -/
def SinkCall.byteCount : SinkCall → Nat
  | .Write1ByteLine _ _ => 1
  | .Write2BytesLine _ _ _ => 2
  | .Write4BytesLine _ _ _ _ _ => 4
  | .Write1WordLine _ _ => 2
  | .Write2WordsLine _ _ _ => 4
  | .Write1ByteData _ => 1
  | .Write8BitsData _ => 1
  | _ => 0

/-- The payload bytes a call passes to the sink, in order: the byte arguments
as they are, a word argument as its low byte followed by its high byte, and
nothing for the framing methods. -/
def SinkCall.payload : SinkCall → List Nat
  | .Write1ByteLine a _ => [u8 a]
  | .Write2BytesLine a b _ => [u8 a, u8 b]
  | .Write4BytesLine a b c d _ => [u8 a, u8 b, u8 c, u8 d]
  | .Write1WordLine a _ => [u16 a % 256, u16 a / 256]
  | .Write2WordsLine a b _ => [u16 a % 256, u16 a / 256, u16 b % 256, u16 b / 256]
  | .Write1ByteData data => [u8 data]
  | .Write8BitsData data => [u8 data]
  | _ => []

/-- The effect of one call on a `u32` byte counter: unchanged by the framing
methods, advanced modulo `2 ^ 32` by the data-writing methods. -/
def SinkCall.advance (total : Nat) (c : SinkCall) : Nat :=
  if c.byteCount = 0 then total else u32 (total + c.byteCount)

/-- An example stream of calls: one table with a sprite header, line records
and a continuous data line. -/
def sampleCalls : List SinkCall :=
  [ .WriteHeader,
    .WriteTableBegin "g_Table" "Data table",
    .WriteSpriteHeader 0,
    .Write4BytesLine 1 2 3 4 "crop",
    .Write1WordLine 0x1234 "offset",
    .WriteLineBegin,
    .Write1ByteData 0xAB,
    .Write8BitsData 0x81,
    .WriteLineEnd,
    .Write2WordsLine 0xBEEF 0x0102 "pair",
    .Write2BytesLine 300 7 "two",
    .Write1ByteLine 9 "one",
    .WriteTableEnd "" ]

/-- The default-constructed parameters of `exporter.h`, with file names set. -/
def sampleParam : ExportParameters :=
  { inFile := "in.png", outFile := "out.bin", tabName := "table", posX := 0, posY := 0,
    sizeX := 0, sizeY := 0, numX := 1, numY := 1, bpc := 8, bUseTrans := false,
    transColor := 0, palCount := 15, comp := COMPRESS_None, bSkipEmpty := false }

/-! ## CMSXimg.cpp: file name helpers -/

namespace stdstring

/-- The member `std::string::find(ext)` on character sequences: the first
position at which `ext` occurs in `str`, `none` for `npos`. -/
def find : List Char → List Char → Option Nat
  | [], ext => if ext.isPrefixOf [] then some 0 else none
  | c :: t, ext =>
    if ext.isPrefixOf (c :: t) then some 0 else (find t ext).map (· + 1)

/-- The member `std::string::find_last_of(chars)`: the last position of `str`
holding one of the characters of `chars`, `none` for `npos`. -/
def find_last_of : List Char → List Char → Option Nat
  | [], _ => none
  | c :: t, chars =>
    match find_last_of t chars with
    | some k => some (k + 1)
    | none => if chars.contains c then some 0 else none

/-- The member `std::string::substr(pos, len)`. -/
def substr (str : String) (pos len : Nat) : String :=
  String.mk ((str.data.drop pos).take len)

end stdstring

/-- Check if filename contains the given extension (`HaveExt`). -/
def HaveExt (str ext : String) : Bool :=
  (stdstring.find str.data ext.data).isSome

/-- Remove the filename extension, if any (`RemoveExt`). -/
def RemoveExt (str : String) : String :=
  match stdstring.find_last_of str.data ".".data with
  | none => str
  | some lastdot => stdstring.substr str 0 lastdot

/-! ## CMSXimg.cpp: main, from the end of the option loop -/

/-- The output format selected with `-format` (`CMSXtk_FileFormat`). -/
inductive CMSXtk_FileFormat
  | FORMAT_Auto
  | FORMAT_C
  | FORMAT_Asm
  | FORMAT_Bin
  deriving DecidableEq, Repr

open CMSXtk_FileFormat

/-- The local variables of `main` when the option loop is left normally. -/
structure ParsedArgs where
  outFormat : CMSXtk_FileFormat
  param : ExportParameters
  bAutoCompress : Bool
  bBestCompress : Bool
  deriving DecidableEq, Repr

/-- The three ways the first part of `main` ends: fewer than two arguments
(`PrintHelp(); return 1;`), an option `-help` met by the loop
(`PrintHelp(); return 0;`), or the loop left with the parsed values. The
scanning of `argv` itself is not modelled. -/
inductive ParseOutcome
  | usage
  | help
  | parsed (args : ParsedArgs)
  deriving DecidableEq, Repr

/-- The exporter class constructed for a call of `ParseImage`. -/
inductive ExporterKind
  | Dummy
  | C
  | ASM
  | Bin
  deriving DecidableEq, Repr

/-- The functions `main` calls and the files at hand do not define.
`ParseImage kind param` answers `bSucceed` together with the value of
`exp->GetTotalBytes()` after the call; `LoadImage` answers whether the
bitmap is non-null. -/
structure MainEnv where
  IsCompressorCompatible : Compressor → ExportParameters → Bool
  ParseImage : ExporterKind → ExportParameters → Bool × Nat
  FileExists : String → Bool
  LoadImage : String → Bool
  SaveImage : String → Bool

/-- An externally visible step of `main`: a call of `ParseImage` on a newly
constructed exporter with the parameters as they are at the call, or a call
of `LoadImage` or `SaveImage`. -/
inductive MainEvent
  | ParseImage (exporter : ExporterKind) (param : ExportParameters)
  | LoadImage (inFile : String)
  | SaveImage (outFile : String)
  deriving DecidableEq, Repr

/-- The value returned by `main` and the steps taken, in order. -/
structure MainResult where
  exitCode : Int
  trace : List MainEvent
  deriving DecidableEq, Repr

/-- The block `if (param.palCount == -1)`: default palette count. -/
def defaultPalCount (param : ExportParameters) : ExportParameters :=
  if param.palCount = -1 then
    if param.bpc = 2 then { param with palCount := 3 }
    else if param.bpc = 4 then { param with palCount := 15 }
    else param
  else param

/-- What the benchmark loop observes for the candidate `c`: `param.comp` is
set to `c`, then `IsCompressorCompatible` and, on an `ExporterDummy`,
`ParseImage` are called. -/
def benchPass (env : MainEnv) (param : ExportParameters) (c : Compressor) : PassResult :=
  { compatible := env.IsCompressorCompatible c { param with comp := c },
    succeed := (env.ParseImage .Dummy { param with comp := c }).1,
    totalBytes := (env.ParseImage .Dummy { param with comp := c }).2 }

/-- The calls of `ParseImage` made by the benchmark loop: one for each
compatible candidate, in table order. -/
def benchTrace (env : MainEnv) (param : ExportParameters) : List MainEvent :=
  (compTable.filter (fun c => env.IsCompressorCompatible c { param with comp := c })).map
    (fun c => MainEvent.ParseImage .Dummy { param with comp := c })

/-- The block `if (param.outFile == "")`: the default output name for an
explicit format, `none` for the `return 1` of `FORMAT_Auto`. -/
def defaultOutFile (outFormat : CMSXtk_FileFormat) (param : ExportParameters) :
    Option ExportParameters :=
  if param.outFile = "" then
    match outFormat with
    | FORMAT_C => some { param with outFile := RemoveExt param.inFile ++ ".h" }
    | FORMAT_Asm => some { param with outFile := RemoveExt param.inFile ++ ".asm" }
    | FORMAT_Bin => some { param with outFile := RemoveExt param.inFile ++ ".bin" }
    | FORMAT_Auto => none
  else some param

/-- The two palette count corrections of the validation block. -/
def validatePalCount (param : ExportParameters) : ExportParameters :=
  let param :=
    if param.bpc = 2 ∧ param.palCount > 3 then { param with palCount := 3 } else param
  let param :=
    if param.bpc = 4 ∧ param.palCount > 15 then { param with palCount := 15 } else param
  param

/-- The block `// Convert`: the exporter dispatch and the value of `bSucceed`
with the steps taken. -/
def convert (env : MainEnv) (outFormat : CMSXtk_FileFormat) (param : ExportParameters) :
    Bool × List MainEvent :=
  if param.inFile ≠ "" ∧ param.outFile ≠ "" then
    if outFormat = FORMAT_C
        ∨ (outFormat = FORMAT_Auto
            ∧ (HaveExt param.outFile ".h" ∨ HaveExt param.outFile ".inc")) then
      ((env.ParseImage .C param).1, [MainEvent.ParseImage .C param])
    else if outFormat = FORMAT_Asm
        ∨ (outFormat = FORMAT_Auto
            ∧ (HaveExt param.outFile ".s" ∨ HaveExt param.outFile ".asm")) then
      ((env.ParseImage .ASM param).1, [MainEvent.ParseImage .ASM param])
    else if outFormat = FORMAT_Bin
        ∨ (outFormat = FORMAT_Auto
            ∧ (HaveExt param.outFile ".bin" ∨ HaveExt param.outFile ".raw")) then
      ((env.ParseImage .Bin param).1, [MainEvent.ParseImage .Bin param])
    else
      if env.LoadImage param.inFile then
        (env.SaveImage param.outFile,
          [MainEvent.LoadImage param.inFile, MainEvent.SaveImage param.outFile])
      else (false, [MainEvent.LoadImage param.inFile])
  else (false, [])

/-- The function `main` from the end of the option loop on: default palette
count, automatic selection, benchmark, validation (with its four `return 1`),
conversion, and `return bSucceed ? 0 : 1`. -/
def main (env : MainEnv) : ParseOutcome → MainResult
  | .usage => { exitCode := 1, trace := [] }
  | .help => { exitCode := 0, trace := [] }
  | .parsed args =>
    let param := defaultPalCount args.param
    let param := if args.bAutoCompress then autoCompress param else param
    let bench := if args.bBestCompress then benchTrace env param else []
    let param :=
      if args.bBestCompress then bestCompress (benchPass env param) param else param
    if param.inFile = "" then { exitCode := 1, trace := bench }
    else
      match defaultOutFile args.outFormat param with
      | none => { exitCode := 1, trace := bench }
      | some param =>
        if param.bpc ≠ 1 ∧ param.bpc ≠ 2 ∧ param.bpc ≠ 4 ∧ param.bpc ≠ 8 then
          { exitCode := 1, trace := bench }
        else if param.bAddCopy ∧ ¬ env.FileExists param.copyFile then
          { exitCode := 1, trace := bench }
        else
          let param := validatePalCount (validateCompressor param)
          let done := convert env args.outFormat param
          { exitCode := if done.1 then 0 else 1, trace := bench ++ done.2 }

/-- Membership in the crop-line family: `CropLine16/32/256`. -/
def Compressor.isCropLine : Compressor → Bool
  | COMPRESS_CropLine16 | COMPRESS_CropLine32 | COMPRESS_CropLine256 => true
  | _ => false

/-- A step of `main` that belongs to the final export: `ParseImage` on a C,
assembly or binary exporter, or the saving of the image. -/
def MainEvent.isFinalExport : MainEvent → Bool
  | .ParseImage .Dummy _ => false
  | .ParseImage _ _ => true
  | .LoadImage _ => false
  | .SaveImage _ => true

/-- The palette count a step hands to `ParseImage`, if it is such a call. -/
def MainEvent.palCount : MainEvent → Option Int
  | .ParseImage _ param => some param.palCount
  | _ => none

/-- An environment in which only `None` and `RLE4` are compatible, every
parse succeeds with 100 bytes, and every file exists and loads. -/
def sampleEnv : MainEnv :=
  { IsCompressorCompatible := fun c _ => c = COMPRESS_None ∨ c = COMPRESS_RLE4,
    ParseImage := fun _ _ => (true, 100),
    FileExists := fun _ => true,
    LoadImage := fun _ => true,
    SaveImage := fun _ => true }

/-- Parsed values for `-bpc 1 -palcount 20` with an explicit C output. -/
def argsOneBitTwentyColors : ParsedArgs :=
  { outFormat := FORMAT_C,
    param := { sampleParam with outFile := "out.h", bpc := 1, palCount := 20 },
    bAutoCompress := false,
    bBestCompress := false }

/-- Parsed values for `-out tiles.set.bin` with the format left to `auto`. -/
def argsAutoTilesSetBin : ParsedArgs :=
  { outFormat := FORMAT_Auto,
    param := { sampleParam with outFile := "tiles.set.bin" },
    bAutoCompress := false,
    bBestCompress := false }

/-- Parsed values for `-out font.hires.asm` with the format left to `auto`. -/
def argsAutoFontHiresAsm : ParsedArgs :=
  { outFormat := FORMAT_Auto,
    param := { sampleParam with outFile := "font.hires.asm" },
    bAutoCompress := false,
    bBestCompress := false }

/-- Parsed values for `-bpc 4 -palcount 20 -compress best -format c`. -/
def argsBestTwentyColors : ParsedArgs :=
  { outFormat := FORMAT_C,
    param := { sampleParam with bpc := 4, palCount := 20 },
    bAutoCompress := false,
    bBestCompress := true }

/-- Parsed values for `-bpc 3 -compress best -format c`. -/
def argsBestThreeBits : ParsedArgs :=
  { outFormat := FORMAT_C,
    param := { sampleParam with bpc := 3 },
    bAutoCompress := false,
    bBestCompress := true }

/-- Parameters for `-size 24 20 -trans 0xFF00FF -bpc 4 -compress rle8`, as
they enter the automatic selection. -/
def paramAutoSample : ExportParameters :=
  { sampleParam with
    sizeX := 24, sizeY := 20, bpc := 4, bUseTrans := true, transColor := 0xFF00FF,
    comp := COMPRESS_RLE8 }

/-! ## Example inputs of the benchmark loop -/

/-- A benchmark in which `None` produces no byte, `Crop16` produces five, and
every other candidate is incompatible. -/
def passZeroThenFive : Compressor → PassResult
  | COMPRESS_None => { compatible := true, succeed := true, totalBytes := 0 }
  | COMPRESS_Crop16 => { compatible := true, succeed := true, totalBytes := 5 }
  | _ => { compatible := false, succeed := false, totalBytes := 0 }

/-- A benchmark in which every candidate is compatible, parses successfully and
produces no byte at all. -/
def passAllZero : Compressor → PassResult :=
  fun _ => { compatible := true, succeed := true, totalBytes := 0 }

/-- A benchmark with one incompatible, one failing and two counted candidates. -/
def passMixed : Compressor → PassResult
  | COMPRESS_None => { compatible := true, succeed := true, totalBytes := 40 }
  | COMPRESS_Crop16 => { compatible := false, succeed := true, totalBytes := 1 }
  | COMPRESS_RLE0 => { compatible := true, succeed := false, totalBytes := 2 }
  | COMPRESS_RLE8 => { compatible := true, succeed := true, totalBytes := 30 }
  | _ => { compatible := false, succeed := false, totalBytes := 0 }

/-- A benchmark in which no candidate is both compatible and successful. -/
def passNoneCounted : Compressor → PassResult
  | COMPRESS_None => { compatible := true, succeed := false, totalBytes := 3 }
  | _ => { compatible := false, succeed := true, totalBytes := 1 }

/-! ## Shared lemmas -/

theorem bestStep_of_not_counted (pass : Compressor → PassResult) (st : BestState)
    (c : Compressor) (h : (pass c).counted = false) : bestStep pass st c = st := by
  unfold PassResult.counted at h
  unfold bestStep
  cases hc : (pass c).compatible <;> cases hs : (pass c).succeed <;> simp_all

theorem foldl_bestStep_filter (pass : Compressor → PassResult) (table : List Compressor)
    (st : BestState) :
    table.foldl (bestStep pass) st
      = (table.filter (fun c => (pass c).counted)).foldl (bestStep pass) st := by
  induction table generalizing st with
  | nil => rfl
  | cons c t ih =>
    cases h : (pass c).counted with
    | true => simp [List.filter_cons, h, ih]
    | false => simp [List.filter_cons, h, bestStep_of_not_counted pass st c h, ih]

theorem foldl_bestStep_none_counted (pass : Compressor → PassResult) (table : List Compressor)
    (st : BestState) (h : ∀ c ∈ table, (pass c).counted = false) :
    table.foldl (bestStep pass) st = st := by
  induction table generalizing st with
  | nil => rfl
  | cons c t ih =>
    have hc : (pass c).counted = false := h c (List.mem_cons_self c t)
    have ht : ∀ d ∈ t, (pass d).counted = false := fun d hd => h d (List.mem_cons_of_mem c hd)
    simp [bestStep_of_not_counted pass st c hc, ih st ht]

theorem crop_mask_test (c : Compressor) :
    (c.val &&& COMPRESS_Crop_Mask ≠ 0) ↔ c.isCrop = true := by
  cases c <;> decide

theorem rle_mask_test (c : Compressor) :
    (c.val &&& COMPRESS_RLE_Mask ≠ 0) ↔ c.isRLE = true := by
  cases c <;> decide

theorem validateCompressor_unfold (param : ExportParameters) :
    validateCompressor param
      = { param with comp := validatedSpec param.bpc param.bUseTrans param.comp } := by
  obtain ⟨_, _, _, _, _, _, _, _, _, bpc, tr, _, _, c, _⟩ := param
  simp only [validateCompressor, validatedSpec, crop_mask_test, rle_mask_test]
  by_cases h12 : bpc = 1 ∨ bpc = 2
  · have h8 : bpc ≠ 8 := by omega
    cases tr <;> cases c <;> simp [h12, h8, Compressor.isCrop, Compressor.isRLE]
  · by_cases h8 : bpc = 8 <;>
      cases tr <;> cases c <;> simp [h12, h8, Compressor.isCrop, Compressor.isRLE]

theorem low_byte_eq (n : Nat) : u8 (n &&& 0x00FF) = n % 256 := by
  have h : n &&& 0x00FF = n % 2 ^ 8 := Nat.and_pow_two_sub_one_eq_mod n 8
  rw [h]
  simp [u8]

theorem high_byte_eq (a : Nat) : u8 (u16 a >>> 8) = u16 a / 256 := by
  simp only [u8, u16, Nat.shiftRight_eq_div_pow]
  omega

theorem foldl_total {σ : Type} (step : σ → SinkCall → σ) (total : σ → Nat)
    (h : ∀ e c, total (step e c) = SinkCall.advance (total e) c)
    (calls : List SinkCall) (e : σ) :
    total (calls.foldl step e) = calls.foldl SinkCall.advance (total e) := by
  induction calls generalizing e with
  | nil => rfl
  | cons c t ih => simp [List.foldl_cons, ih, h]

theorem bin_call_total (e : ExporterBin) (c : SinkCall) :
    (e.call c).TotalBytes = SinkCall.advance e.TotalBytes c := by
  cases c <;> rfl

theorem dummy_call_total (e : ExporterDummy) (c : SinkCall) :
    (e.call c).TotalBytes = SinkCall.advance e.TotalBytes c := by
  cases c <;> rfl

theorem c_call_total (rt : TextRuntime) (e : ExporterText) (c : SinkCall) :
    (ExporterC.call rt e c).TotalBytes = SinkCall.advance e.TotalBytes c := by
  cases c with
  | WriteTableEnd comment =>
    simp only [ExporterC.call, ExporterC.WriteTableEnd]
    split <;> rfl
  | _ => rfl

theorem asm_call_total (rt : TextRuntime) (e : ExporterText) (c : SinkCall) :
    (ExporterASM.call rt e c).TotalBytes = SinkCall.advance e.TotalBytes c := by
  cases c with
  | WriteTableEnd comment =>
    simp only [ExporterASM.call, ExporterASM.WriteTableEnd]
    split <;> rfl
  | _ => rfl

theorem bin_call_outData (e : ExporterBin) (c : SinkCall) :
    (e.call c).outData = e.outData ++ c.payload := by
  cases c <;>
    simp [ExporterBin.call, ExporterBin.WriteHeader, ExporterBin.WriteTableBegin,
      ExporterBin.WriteSpriteHeader, ExporterBin.Write1ByteLine, ExporterBin.Write2BytesLine,
      ExporterBin.Write4BytesLine, ExporterBin.Write1WordLine, ExporterBin.Write2WordsLine,
      ExporterBin.WriteLineBegin, ExporterBin.Write1ByteData, ExporterBin.Write8BitsData,
      ExporterBin.WriteLineEnd, ExporterBin.WriteTableEnd, SinkCall.payload,
      low_byte_eq, high_byte_eq]

theorem payload_length (c : SinkCall) : c.payload.length = c.byteCount := by
  cases c <;> rfl

theorem bin_foldl_outData (calls : List SinkCall) (e : ExporterBin) :
    (calls.foldl ExporterBin.call e).outData = e.outData ++ calls.flatMap SinkCall.payload := by
  induction calls generalizing e with
  | nil => simp
  | cons c t ih => simp [List.foldl_cons, ih, bin_call_outData, List.flatMap_cons]

theorem bin_foldl_counter (calls : List SinkCall) (e : ExporterBin)
    (h : e.TotalBytes = u32 e.outData.length) :
    (calls.foldl ExporterBin.call e).TotalBytes
      = u32 (calls.foldl ExporterBin.call e).outData.length := by
  induction calls generalizing e with
  | nil => exact h
  | cons c t ih =>
    simp only [List.foldl_cons]
    apply ih
    rw [bin_call_total, bin_call_outData, List.length_append, payload_length, h]
    unfold SinkCall.advance u32
    split
    · next h0 => simp [h0]
    · simp [Nat.add_mod]

theorem defaultPalCount_bpc (param : ExportParameters) :
    (defaultPalCount param).bpc = param.bpc := by
  unfold defaultPalCount
  split_ifs <;> rfl

theorem autoCompress_bpc (param : ExportParameters) :
    (autoCompress param).bpc = param.bpc := by
  unfold autoCompress
  simp only
  split_ifs <;> rfl

theorem defaultOutFile_bpc (outFormat : CMSXtk_FileFormat) (param out : ExportParameters)
    (h : defaultOutFile outFormat param = some out) : out.bpc = param.bpc := by
  unfold defaultOutFile at h
  split_ifs at h
  · cases outFormat <;> simp at h <;> subst h <;> rfl
  · simp at h
    subst h
    rfl

theorem benchTrace_not_final (env : MainEnv) (param : ExportParameters) :
    ∀ ev ∈ benchTrace env param, ev.isFinalExport = false := by
  intro ev hev
  unfold benchTrace at hev
  obtain ⟨c, _, rfl⟩ := List.mem_map.mp hev
  rfl

theorem find_last_of_none (l : List Char) :
    stdstring.find_last_of l ['.'] = none ↔ '.' ∉ l := by
  induction l with
  | nil => simp [stdstring.find_last_of]
  | cons c t ih =>
    unfold stdstring.find_last_of
    cases h : stdstring.find_last_of t ['.'] with
    | some k =>
      have : ¬ ('.' ∉ t) := fun hn => by simp [ih.mpr hn] at h
      simp only [reduceCtorEq, false_iff, List.mem_cons, not_or, not_and, not_not]
      intro _
      exact not_not.mp this
    | none =>
      have ht : '.' ∉ t := ih.mp h
      by_cases hc : c = '.'
      · simp [hc]
      · have hc2 : ¬ ('.' = c) := fun e => hc e.symm
        simp [hc, hc2, ht]

theorem find_last_of_some (l : List Char) (k : Nat)
    (h : stdstring.find_last_of l ['.'] = some k) :
    l = l.take k ++ '.' :: l.drop (k + 1) ∧ '.' ∉ l.drop (k + 1) := by
  induction l generalizing k with
  | nil => simp [stdstring.find_last_of] at h
  | cons c t ih =>
    unfold stdstring.find_last_of at h
    cases ht : stdstring.find_last_of t ['.'] with
    | some j =>
      rw [ht] at h
      simp only [Option.some.injEq] at h
      subst h
      obtain ⟨h1, h2⟩ := ih j ht
      refine ⟨?_, by simpa using h2⟩
      simp only [List.take_succ_cons, List.cons_append, List.drop_succ_cons]
      exact congrArg (List.cons c) h1
    | none =>
      rw [ht] at h
      by_cases hc : c = '.'
      · simp [hc] at h
        subst h
        subst hc
        exact ⟨by simp, by simpa using (find_last_of_none t).mp ht⟩
      · simp [hc] at h

theorem bestStep_of_counted (pass : Compressor → PassResult) (st : BestState)
    (c : Compressor) (h : (pass c).counted = true) :
    bestStep pass st c
      = if st.bestSize = 0 ∨ (pass c).totalBytes < st.bestSize then
          { bestSize := (pass c).totalBytes, bestComp := c }
        else st := by
  unfold PassResult.counted at h
  unfold bestStep
  cases hc : (pass c).compatible <;> cases hs : (pass c).succeed <;> simp_all

theorem foldl_bestStep_first_min (pass : Compressor → PassResult) (l : List Compressor)
    (h : ∀ c ∈ l, (pass c).counted = true → 1 ≤ (pass c).totalBytes) :
    ((∀ c ∈ l, (pass c).counted = false)
        ∧ l.foldl (bestStep pass) { bestSize := 0, bestComp := COMPRESS_None }
            = { bestSize := 0, bestComp := COMPRESS_None })
      ∨ ∃ pre post,
          l = pre ++ (l.foldl (bestStep pass)
                { bestSize := 0, bestComp := COMPRESS_None }).bestComp :: post
          ∧ (pass (l.foldl (bestStep pass)
                { bestSize := 0, bestComp := COMPRESS_None }).bestComp).counted = true
          ∧ (pass (l.foldl (bestStep pass)
                { bestSize := 0, bestComp := COMPRESS_None }).bestComp).totalBytes
              = (l.foldl (bestStep pass) { bestSize := 0, bestComp := COMPRESS_None }).bestSize
          ∧ (∀ c ∈ pre, (pass c).counted = true →
              (l.foldl (bestStep pass) { bestSize := 0, bestComp := COMPRESS_None }).bestSize
                < (pass c).totalBytes)
          ∧ (∀ c ∈ post, (pass c).counted = true →
              (l.foldl (bestStep pass) { bestSize := 0, bestComp := COMPRESS_None }).bestSize
                ≤ (pass c).totalBytes) := by
  induction l using List.reverseRecOn with
  | nil => exact Or.inl ⟨by simp, rfl⟩
  | append_singleton l c ih =>
    have hl : ∀ d ∈ l, (pass d).counted = true → 1 ≤ (pass d).totalBytes :=
      fun d hd => h d (List.mem_append_left _ hd)
    have hc : (pass c).counted = true → 1 ≤ (pass c).totalBytes :=
      h c (List.mem_append_right _ (List.mem_singleton_self c))
    rw [List.foldl_append, List.foldl_cons, List.foldl_nil]
    generalize l.foldl (bestStep pass) { bestSize := 0, bestComp := COMPRESS_None } = st
      at ih ⊢
    cases hcc : (pass c).counted with
    | false =>
      rw [bestStep_of_not_counted pass st c hcc]
      rcases ih hl with ⟨hnone, hst⟩ | ⟨pre, post, hsplit, hb, ht, hpre, hpost⟩
      · left
        refine ⟨fun d hd => ?_, hst⟩
        rcases List.mem_append.mp hd with hd | hd
        · exact hnone d hd
        · rw [List.mem_singleton.mp hd]
          exact hcc
      · right
        refine ⟨pre, post ++ [c], by rw [hsplit]; simp, hb, ht, hpre, fun d hd hdc => ?_⟩
        rcases List.mem_append.mp hd with hd | hd
        · exact hpost d hd hdc
        · rw [List.mem_singleton.mp hd, hcc] at hdc
          exact absurd hdc (by simp)
    | true =>
      have hpos := hc hcc
      rw [bestStep_of_counted pass st c hcc]
      right
      rcases ih hl with ⟨hnone, hst⟩ | ⟨pre, post, hsplit, hb, ht, hpre, hpost⟩
      · subst hst
        rw [if_pos (Or.inl rfl)]
        refine ⟨l, [], rfl, hcc, rfl, fun d hd hdc => ?_, by simp⟩
        rw [hnone d hd] at hdc
        exact absurd hdc (by simp)
      · by_cases hlt : (pass c).totalBytes < st.bestSize
        · rw [if_pos (Or.inr hlt)]
          refine ⟨l, [], rfl, hcc, rfl, fun d hd hdc => ?_, by simp⟩
          simp only
          rw [hsplit] at hd
          rcases List.mem_append.mp hd with hd | hd
          · exact lt_trans hlt (hpre d hd hdc)
          · rcases List.mem_cons.mp hd with hd | hd
            · rw [hd, ht]
              exact hlt
            · exact lt_of_lt_of_le hlt (hpost d hd hdc)
        · have hne : ¬ (st.bestSize = 0 ∨ (pass c).totalBytes < st.bestSize) := by
            intro hor
            rcases hor with h0 | h1
            · have hbpos : 1 ≤ (pass st.bestComp).totalBytes :=
                hl st.bestComp (by rw [hsplit]; simp) hb
              omega
            · exact hlt h1
          rw [if_neg hne]
          refine ⟨pre, post ++ [c], by rw [hsplit]; simp, hb, ht, hpre, fun d hd _ => ?_⟩
          rcases List.mem_append.mp hd with hd | hd
          · exact hpost d hd (by assumption)
          · rw [List.mem_singleton.mp hd]
            omega

/-! ## Theorems -/

/-- C1: at the benchmark `passZeroThenFive` the loop selects `Crop16` with a
recorded size of 5 bytes, although `None` is compatible, succeeds and totals 0
bytes: the recorded total exceeds the total of a counted candidate. -/
theorem best_bound_broken_by_zero_total :
    bestLoop passZeroThenFive compTable = { bestSize := 5, bestComp := COMPRESS_Crop16 }
      ∧ (passZeroThenFive COMPRESS_None).counted = true
      ∧ (passZeroThenFive COMPRESS_None).totalBytes
          < (passZeroThenFive (bestLoop passZeroThenFive compTable).bestComp).totalBytes := by
  decide

/-- C2: at the benchmark `passAllZero`, where all ten candidates are counted and
tie at 0 bytes, the loop selects the last candidate `RLE8` and not the first
one `None`: a later candidate with an equal total replaced an earlier one. -/
theorem best_tie_broken_by_zero_total :
    (bestLoop passAllZero compTable).bestComp = COMPRESS_RLE8
      ∧ (∀ c ∈ compTable, (passAllZero c).counted = true
            ∧ (passAllZero c).totalBytes = (passAllZero COMPRESS_None).totalBytes)
      ∧ compTable.head? = some COMPRESS_None := by
  decide

/-- C3: for every colour depth 1, 2, 4 or 8 the automatic selection is the
table `autoTableSpec` of `(sizeX, sizeY, bUseTrans, bpc)` alone, whatever the
other parameters and the previously requested compressor are: `None` when a
size is zero; with transparency, the crop family at depth 1 or 2 and the
crop-line family at depth 4 or 8, by the thresholds 16, 32, 256 on the larger
side; without transparency `RLE4` at depth 4; `None` in every other case. No
other parameter is changed by the selection. -/
theorem autoCompress_eq_spec_table (param : ExportParameters)
    (hbpc : param.bpc = 1 ∨ param.bpc = 2 ∨ param.bpc = 4 ∨ param.bpc = 8) :
    (autoCompress param).comp
        = autoTableSpec param.sizeX param.sizeY param.bUseTrans param.bpc
      ∧ autoCompress param = { param with comp := (autoCompress param).comp } := by
  obtain ⟨_, _, _, _, _, sx, sy, _, _, bpc, tr, _, _, _, _, _, _⟩ := param
  simp only at hbpc
  constructor
  · unfold autoCompress autoTableSpec
    simp only [max_le_iff]
    cases tr <;> simp <;> split_ifs <;> first | rfl | omega
  · unfold autoCompress
    simp only
    split_ifs <;> rfl

/-- C3 (witness): a 24x20 block with transparency at depth 4 gets `CropLine32`,
although `RLE8` was requested before. -/
theorem autoCompress_eq_spec_table_witness :
    (autoCompress paramAutoSample).comp = COMPRESS_CropLine32
      ∧ (autoCompress paramAutoSample).comp
        = autoTableSpec paramAutoSample.sizeX paramAutoSample.sizeY
            paramAutoSample.bUseTrans paramAutoSample.bpc :=
  ⟨by decide, (autoCompress_eq_spec_table paramAutoSample (by decide)).1⟩

/-- C4: for a colour depth of 1, 2, 4 or 8, any transparency flag and any
requested compressor, the parameters left by the compressor validation satisfy:
a crop, crop-line or RLE0 compressor implies transparency; an RLE compressor
implies depth 4 or 8; RLE4 implies depth 4. Depth and transparency flag are the
requested ones. -/
theorem validateCompressor_compatible (param : ExportParameters)
    (hbpc : param.bpc = 1 ∨ param.bpc = 2 ∨ param.bpc = 4 ∨ param.bpc = 8) :
    (validateCompressor param).bpc = param.bpc
      ∧ (validateCompressor param).bUseTrans = param.bUseTrans
      ∧ (((validateCompressor param).comp.isCrop = true
            ∨ (validateCompressor param).comp = COMPRESS_RLE0)
          → (validateCompressor param).bUseTrans = true)
      ∧ ((validateCompressor param).comp.isRLE = true
          → ((validateCompressor param).bpc = 4 ∨ (validateCompressor param).bpc = 8))
      ∧ ((validateCompressor param).comp = COMPRESS_RLE4
          → (validateCompressor param).bpc = 4) := by
  rw [validateCompressor_unfold]
  obtain ⟨_, _, _, _, _, _, _, _, _, bpc, tr, _, _, c, _⟩ := param
  simp only at hbpc ⊢
  rcases hbpc with rfl | rfl | rfl | rfl <;> cases tr <;> cases c <;> decide

/-- C4 (witness): the invariant at a request for RLE4 at depth 8 without
transparency. -/
theorem validateCompressor_compatible_witness :
    (validateCompressor
        { inFile := "a.png", outFile := "a.h", tabName := "table", posX := 0, posY := 0,
          sizeX := 16, sizeY := 16, numX := 1, numY := 1, bpc := 8, bUseTrans := false,
          transColor := 0, palCount := 15, comp := COMPRESS_RLE4, bSkipEmpty := false }).comp
        = COMPRESS_RLE8
      ∧ ((validateCompressor
        { inFile := "a.png", outFile := "a.h", tabName := "table", posX := 0, posY := 0,
          sizeX := 16, sizeY := 16, numX := 1, numY := 1, bpc := 8, bUseTrans := false,
          transColor := 0, palCount := 15, comp := COMPRESS_RLE4, bSkipEmpty := false }).comp
        = COMPRESS_RLE4
        → (validateCompressor
        { inFile := "a.png", outFile := "a.h", tabName := "table", posX := 0, posY := 0,
          sizeX := 16, sizeY := 16, numX := 1, numY := 1, bpc := 8, bUseTrans := false,
          transColor := 0, palCount := 15, comp := COMPRESS_RLE4, bSkipEmpty := false }).bpc
        = 4) :=
  ⟨by decide,
   (validateCompressor_compatible
        { inFile := "a.png", outFile := "a.h", tabName := "table", posX := 0, posY := 0,
          sizeX := 16, sizeY := 16, numX := 1, numY := 1, bpc := 8, bUseTrans := false,
          transColor := 0, palCount := 15, comp := COMPRESS_RLE4, bSkipEmpty := false }
        (by decide)).2.2.2.2⟩

/-- C5: the validated compressor is `None` when a crop, crop-line or RLE0
compressor is requested without transparency or an RLE compressor is requested
at depth 1 or 2; it is `RLE8` when `RLE4` is requested at depth 8; it is the
requested compressor in every other case. This holds at every colour depth,
1, 2, 4 and 8 included, and no other parameter is touched. -/
theorem validateCompressor_eq_spec (param : ExportParameters) :
    validateCompressor param
      = { param with comp := validatedSpec param.bpc param.bUseTrans param.comp } := by
  exact validateCompressor_unfold param

/-- C6: a request for `RLE4` at depth 8 is validated to `RLE8`, with or
without a transparency colour; it is neither demoted to `None` nor left as
`RLE4`. -/
theorem validateCompressor_rle4_promoted (param : ExportParameters)
    (hbpc : param.bpc = 8) (hcomp : param.comp = COMPRESS_RLE4) :
    (validateCompressor param).comp = COMPRESS_RLE8
      ∧ (validateCompressor param).comp ≠ COMPRESS_None
      ∧ (validateCompressor param).comp ≠ COMPRESS_RLE4 := by
  rw [validateCompressor_unfold]
  obtain ⟨_, _, _, _, _, _, _, _, _, bpc, tr, _, _, c, _⟩ := param
  simp only at hbpc hcomp ⊢
  subst hbpc hcomp
  cases tr <;> decide

/-- C6 (witness): the promotion with a transparency colour set. -/
theorem validateCompressor_rle4_promoted_witness :
    (validateCompressor
        { inFile := "a.png", outFile := "a.bin", tabName := "table", posX := 0, posY := 0,
          sizeX := 8, sizeY := 8, numX := 2, numY := 2, bpc := 8, bUseTrans := true,
          transColor := 0xFF00FF, palCount := 15, comp := COMPRESS_RLE4,
          bSkipEmpty := false }).comp = COMPRESS_RLE8 :=
  (validateCompressor_rle4_promoted
        { inFile := "a.png", outFile := "a.bin", tabName := "table", posX := 0, posY := 0,
          sizeX := 8, sizeY := 8, numX := 2, numY := 2, bpc := 8, bUseTrans := true,
          transColor := 0xFF00FF, palCount := 15, comp := COMPRESS_RLE4,
          bSkipEmpty := false } rfl rfl).1

/-- C7: candidates that are incompatible or whose pass fails do not influence
the benchmark: the loop over `compTable` ends in the same state (same selected
compressor, same recorded size) as the loop over the table with those
candidates deleted, so the compressor stored in `param.comp` is the one chosen
on the shortened table; and when no candidate of the table is both compatible
and successful the selected compressor is `None`. -/
theorem bestLoop_ignores_uncounted (pass : Compressor → PassResult) (param : ExportParameters) :
    bestLoop pass compTable
        = bestLoop pass (compTable.filter (fun c => (pass c).counted))
      ∧ (bestCompress pass param).comp
          = (bestLoop pass (compTable.filter (fun c => (pass c).counted))).bestComp
      ∧ ((∀ c ∈ compTable, (pass c).counted = false)
          → (bestCompress pass param).comp = COMPRESS_None) := by
  have hfilter := foldl_bestStep_filter pass compTable
    { bestSize := 0, bestComp := COMPRESS_None }
  refine ⟨hfilter, ?_, fun h => ?_⟩
  · simp only [bestCompress, bestLoop]
    rw [hfilter]
  · simp only [bestCompress, bestLoop]
    rw [foldl_bestStep_none_counted pass compTable _ h]

/-- C7 (witness): in `passNoneCounted` no candidate is counted and the loop
selects `None`; in `passMixed` the uncounted `Crop16` (1 byte) and `RLE0`
(2 bytes) are ignored and `RLE8` (30 bytes) is selected. -/
theorem bestLoop_ignores_uncounted_witness :
    (bestCompress passNoneCounted sampleParam).comp = COMPRESS_None
      ∧ (bestCompress passMixed sampleParam).comp = COMPRESS_RLE8
      ∧ compTable.filter (fun c => (passMixed c).counted) = [COMPRESS_None, COMPRESS_RLE8] :=
  ⟨(bestLoop_ignores_uncounted passNoneCounted sampleParam).2.2 (by decide),
   by decide, by decide⟩

/-- C8: after any finite sequence of calls on a fresh `ExporterBin`,
`GetTotalBytes()` is the size of the buffer `outData` modulo `2 ^ 32`; so, as
long as fewer than `2 ^ 32` bytes were written (no `u32` wrap-around),
`GetTotalBytes()` equals the number of bytes that `Export()` writes. -/
theorem ExporterBin_total_eq_exported (f : DataFormat) (p : ExportParameters)
    (calls : List SinkCall)
    (hsize : (ExporterBin.run f p calls).outData.length < 2 ^ 32) :
    ∃ bytes, (ExporterBin.run f p calls).Export true = some bytes
      ∧ (ExporterBin.run f p calls).GetTotalBytes = bytes.length := by
  refine ⟨(ExporterBin.run f p calls).outData, rfl, ?_⟩
  have h := bin_foldl_counter calls (ExporterBin.create f p) rfl
  unfold ExporterBin.run at hsize ⊢
  unfold ExporterBin.GetTotalBytes
  rw [h]
  exact Nat.mod_eq_of_lt hsize

/-- C8 (witness): the sample stream writes 15 bytes and the counter reads 15. -/
theorem ExporterBin_total_eq_exported_witness :
    (ExporterBin.run DATA_Hexa sampleParam sampleCalls).GetTotalBytes = 15
      ∧ ∃ bytes, (ExporterBin.run DATA_Hexa sampleParam sampleCalls).Export true = some bytes
          ∧ (ExporterBin.run DATA_Hexa sampleParam sampleCalls).GetTotalBytes = bytes.length :=
  ⟨by decide, ExporterBin_total_eq_exported DATA_Hexa sampleParam sampleCalls (by decide)⟩

/-- C9: for every finite sequence of sink calls, the counting probe
`ExporterDummy` and the three real sinks `ExporterBin`, `ExporterC` and
`ExporterASM`, each freshly constructed and fed the same calls with the same
arguments, report the same `GetTotalBytes()` (whatever the data format, the
parameters and the text formatter are). -/
theorem exporters_same_total (rt : TextRuntime) (f : DataFormat) (p : ExportParameters)
    (calls : List SinkCall) :
    (ExporterBin.run f p calls).GetTotalBytes = (ExporterDummy.run f p calls).GetTotalBytes
      ∧ (ExporterC.run rt f p calls).GetTotalBytes = (ExporterDummy.run f p calls).GetTotalBytes
      ∧ (ExporterASM.run rt f p calls).GetTotalBytes
          = (ExporterDummy.run f p calls).GetTotalBytes := by
  have hd := foldl_total ExporterDummy.call (fun e => e.TotalBytes) dummy_call_total
    calls (ExporterDummy.create f p)
  have hb := foldl_total ExporterBin.call (fun e => e.TotalBytes) bin_call_total
    calls (ExporterBin.create f p)
  have hc := foldl_total (ExporterC.call rt) (fun e => e.TotalBytes) (c_call_total rt)
    calls (ExporterC.create f p)
  have ha := foldl_total (ExporterASM.call rt) (fun e => e.TotalBytes)
    (asm_call_total rt) calls (ExporterASM.create f p)
  simp only [ExporterBin.GetTotalBytes, ExporterDummy.GetTotalBytes,
    ExporterText.GetTotalBytes, ExporterBin.run, ExporterDummy.run, ExporterC.run,
    ExporterASM.run]
  simp only at hd hb hc ha
  rw [hd, hb, hc, ha]
  exact ⟨rfl, rfl, rfl⟩

/-- C10: on `ExporterBin` the six framing methods `WriteHeader`,
`WriteTableBegin`, `WriteSpriteHeader`, `WriteLineBegin`, `WriteLineEnd` and
`WriteTableEnd` return the exporter unchanged (buffer and `TotalBytes`
included), and the byte stream that `Export()` writes after any sequence of
calls on a fresh exporter is the concatenation, in call order, of the payload
bytes of the data-writing calls. -/
theorem ExporterBin_no_framing (e : ExporterBin) (name comment : String) (number : Int)
    (f : DataFormat) (p : ExportParameters) (calls : List SinkCall) :
    e.WriteHeader = e
      ∧ e.WriteTableBegin name comment = e
      ∧ e.WriteSpriteHeader number = e
      ∧ e.WriteLineBegin = e
      ∧ e.WriteLineEnd = e
      ∧ e.WriteTableEnd comment = e
      ∧ (ExporterBin.run f p calls).Export true = some (calls.flatMap SinkCall.payload) := by
  refine ⟨rfl, rfl, rfl, rfl, rfl, rfl, ?_⟩
  simp [ExporterBin.Export, ExporterBin.run, bin_foldl_outData, ExporterBin.create]

/-- C11: the palette count left by the validation block is `min(requested, 15)`
at depth 4 and `min(requested, 3)` at depth 2, where `requested` is the count
entering the block; a count within the limit is therefore unchanged, and no
other parameter is touched. -/
theorem validatePalCount_clamps (param : ExportParameters) :
    (param.bpc = 4 → (validatePalCount param).palCount = min param.palCount 15)
      ∧ (param.bpc = 2 → (validatePalCount param).palCount = min param.palCount 3)
      ∧ validatePalCount param
          = { param with palCount := (validatePalCount param).palCount } := by
  obtain ⟨_, _, _, _, _, _, _, _, _, bpc, _, _, pc, _, _, _, _⟩ := param
  unfold validatePalCount
  refine ⟨fun h => ?_, fun h => ?_, ?_⟩
  · simp only at h
    subst h
    simp only
    split_ifs <;> simp_all
    omega
  · simp only at h
    subst h
    simp only
    split_ifs <;> simp_all
    omega
  · simp only
    split_ifs <;> rfl

/-- C11 (witness): depth 4 with 20 requested colours gives 15; depth 2 with 2
requested colours keeps 2. -/
theorem validatePalCount_clamps_witness :
    (validatePalCount { sampleParam with bpc := 4, palCount := 20 }).palCount = min 20 15
      ∧ (validatePalCount { sampleParam with bpc := 4, palCount := 20 }).palCount = 15
      ∧ (validatePalCount { sampleParam with bpc := 2, palCount := 2 }).palCount = 2 :=
  ⟨(validatePalCount_clamps { sampleParam with bpc := 4, palCount := 20 }).1 rfl,
   by decide, by decide⟩

/-- C12 (as stated, refuted): at depth 1 with 20 requested colours the whole
validation leaves a palette count of 20, which exceeds `2 ^ 1`. -/
theorem palCount_exceeds_at_one_bit :
    (validatePalCount (validateCompressor argsOneBitTwentyColors.param)).palCount = 20
      ∧ (validatePalCount (validateCompressor argsOneBitTwentyColors.param)).bpc = 1
      ∧ ¬ ((validatePalCount (validateCompressor argsOneBitTwentyColors.param)).palCount
            ≤ 2 ^ (validatePalCount (validateCompressor argsOneBitTwentyColors.param)).bpc.toNat)
      ∧ (main sampleEnv (.parsed argsOneBitTwentyColors)).trace
          = [MainEvent.ParseImage .C argsOneBitTwentyColors.param] := by
  decide

/-- C12 (amended): after the whole validation, at depth 2 or 4 the palette
count does not exceed `2 ^ bpc` (it is at most `2 ^ bpc - 1`), for every
requested count; at depth 1 or 8 the palette count is the requested one. -/
theorem palCount_bounded_at_two_and_four_bits (param : ExportParameters) :
    ((param.bpc = 2 ∨ param.bpc = 4) →
        (validatePalCount (validateCompressor param)).palCount
            ≤ 2 ^ (validatePalCount (validateCompressor param)).bpc.toNat - 1
          ∧ (validatePalCount (validateCompressor param)).palCount
            ≤ 2 ^ (validatePalCount (validateCompressor param)).bpc.toNat)
      ∧ ((param.bpc = 1 ∨ param.bpc = 8) →
          (validatePalCount (validateCompressor param)).palCount = param.palCount) := by
  rw [validateCompressor_unfold]
  obtain ⟨_, _, _, _, _, _, _, _, _, bpc, _, _, pc, _, _, _, _⟩ := param
  unfold validatePalCount
  refine ⟨fun h => ?_, fun h => ?_⟩
  · simp only at h
    rcases h with h | h <;> subst h <;> simp only <;> split_ifs <;> simp_all <;> omega
  · simp only at h
    rcases h with h | h <;> subst h <;> simp

/-- C12 (amended, witness): depth 4 with 20 requested colours ends at 15, below
`2 ^ 4`. -/
theorem palCount_bounded_at_two_and_four_bits_witness :
    (validatePalCount (validateCompressor argsBestTwentyColors.param)).palCount
      ≤ 2 ^ (validatePalCount (validateCompressor argsBestTwentyColors.param)).bpc.toNat :=
  ((palCount_bounded_at_two_and_four_bits argsBestTwentyColors.param).1
    (Or.inr (by decide))).2

/-- C13: with the format left to `auto`, the output name `tiles.set.bin`, which
ends in `.bin`, is handed to the assembly exporter, and the output name
`font.hires.asm`, which ends in `.asm`, is handed to the C exporter: the
dispatch looks for `.h`, `.inc`, `.s`, `.asm` anywhere in the name. -/
theorem auto_format_ignores_name_end :
    (main sampleEnv (.parsed argsAutoTilesSetBin)).trace
        = [MainEvent.ParseImage .ASM argsAutoTilesSetBin.param]
      ∧ ".bin".data.isSuffixOf argsAutoTilesSetBin.param.outFile.data = true
      ∧ (main sampleEnv (.parsed argsAutoFontHiresAsm)).trace
        = [MainEvent.ParseImage .C argsAutoFontHiresAsm.param]
      ∧ ".asm".data.isSuffixOf argsAutoFontHiresAsm.param.outFile.data = true := by
  decide

/-- C14: when the option loop ends normally (no `-help`) with a colour depth
outside 1, 2, 4, 8, `main` returns 1 and no step of the final export is taken
(no `ParseImage` on a C, assembly or binary exporter, no `SaveImage`), whatever
the other options and the answers of the environment are. A run with fewer
than two arguments returns 1 too. -/
theorem invalid_bpc_is_fatal (env : MainEnv) (args : ParsedArgs)
    (hbpc : args.param.bpc ≠ 1 ∧ args.param.bpc ≠ 2 ∧ args.param.bpc ≠ 4
      ∧ args.param.bpc ≠ 8) :
    (main env (.parsed args)).exitCode = 1
      ∧ (main env (.parsed args)).exitCode ≠ 0
      ∧ (∀ ev ∈ (main env (.parsed args)).trace, ev.isFinalExport = false)
      ∧ (main env .usage).exitCode = 1 := by
  have key : (main env (.parsed args)).exitCode = 1
      ∧ ∀ ev ∈ (main env (.parsed args)).trace, ev.isFinalExport = false := by
    obtain ⟨outFormat, param, bAuto, bBest⟩ := args
    simp only at hbpc
    simp only [main]
    have hq : (if bAuto = true then autoCompress (defaultPalCount param)
        else defaultPalCount param).bpc = param.bpc := by
      cases bAuto <;> simp [autoCompress_bpc, defaultPalCount_bpc]
    generalize (if bAuto = true then autoCompress (defaultPalCount param)
        else defaultPalCount param) = q at hq ⊢
    have hb : ∀ ev ∈ (if bBest = true then benchTrace env q else []),
        ev.isFinalExport = false := by
      intro ev hev
      cases bBest
      · simp at hev
      · exact benchTrace_not_final env q ev hev
    generalize (if bBest = true then benchTrace env q else []) = bench at hb ⊢
    have hr : (if bBest = true then bestCompress (benchPass env q) q else q).bpc = q.bpc := by
      cases bBest <;> rfl
    generalize (if bBest = true then bestCompress (benchPass env q) q else q) = r at hr ⊢
    by_cases hin : r.inFile = ""
    · rw [if_pos hin]
      exact ⟨rfl, hb⟩
    · rw [if_neg hin]
      split
      · exact ⟨rfl, hb⟩
      · next out hout =>
        have hout_bpc : out.bpc = param.bpc := by
          rw [defaultOutFile_bpc _ _ _ hout, hr, hq]
        rw [← hout_bpc] at hbpc
        rw [if_pos hbpc]
        exact ⟨rfl, hb⟩
  exact ⟨key.1, by rw [key.1]; decide, key.2, rfl⟩

/-- C14 (witness): `-bpc 3 -compress best -format c` runs the two compatible
benchmark passes and returns 1 without any export. -/
theorem invalid_bpc_is_fatal_witness :
    (main sampleEnv (.parsed argsBestThreeBits)).exitCode = 1
      ∧ (main sampleEnv (.parsed argsBestThreeBits)).trace.length = 2 :=
  ⟨(invalid_bpc_is_fatal sampleEnv argsBestThreeBits (by decide)).1, by decide⟩

/-- C15: `RemoveExt` removes exactly the last extension: a name without `.`
is returned as it is; otherwise the name is the result followed by `.` and by
a rest that contains no `.`. -/
theorem RemoveExt_removes_last_extension (s : String) :
    ('.' ∉ s.data → RemoveExt s = s)
      ∧ ('.' ∈ s.data → ∃ e : String, s = RemoveExt s ++ "." ++ e ∧ '.' ∉ e.data) := by
  have hdot : (".".data : List Char) = ['.'] := rfl
  constructor
  · intro h
    unfold RemoveExt
    rw [hdot, (find_last_of_none s.data).mpr h]
  · intro h
    unfold RemoveExt
    rw [hdot]
    cases hk : stdstring.find_last_of s.data ['.'] with
    | none => exact absurd h ((find_last_of_none s.data).mp hk)
    | some k =>
      obtain ⟨h1, h2⟩ := find_last_of_some s.data k hk
      refine ⟨String.mk (s.data.drop (k + 1)), ?_, h2⟩
      apply String.ext
      simp only [String.data_append, stdstring.substr, List.drop_zero, hdot]
      simpa using h1

/-- C15 (witness): `sprites/car.v2.png` loses `.png` only, and `Makefile` is
unchanged. -/
theorem RemoveExt_removes_last_extension_witness :
    RemoveExt "Makefile" = "Makefile"
      ∧ RemoveExt "sprites/car.v2.png" = "sprites/car.v2" :=
  ⟨(RemoveExt_removes_last_extension "Makefile").1 (by decide), by decide⟩

/-- C16: if every compatible, successful candidate totals at least one byte,
then either no candidate is compatible and successful (and the loop keeps
`None` with size 0), or the loop selects a compatible, successful candidate
whose total is the recorded best size, that size is at most the total of every
compatible, successful candidate (it is their minimum), and every compatible,
successful candidate placed before the selected one in the table totals
strictly more (the selected one is the earliest that reaches the minimum). -/
theorem bestLoop_first_minimum (pass : Compressor → PassResult)
    (hdata : ∀ c ∈ compTable, (pass c).counted = true → 1 ≤ (pass c).totalBytes) :
    ((∀ c ∈ compTable, (pass c).counted = false)
        ∧ bestLoop pass compTable = { bestSize := 0, bestComp := COMPRESS_None })
      ∨ ((pass (bestLoop pass compTable).bestComp).counted = true
          ∧ (pass (bestLoop pass compTable).bestComp).totalBytes
              = (bestLoop pass compTable).bestSize
          ∧ (∀ c ∈ compTable, (pass c).counted = true →
              (bestLoop pass compTable).bestSize ≤ (pass c).totalBytes)
          ∧ ∃ pre post, compTable = pre ++ (bestLoop pass compTable).bestComp :: post
              ∧ ∀ c ∈ pre, (pass c).counted = true →
                  (bestLoop pass compTable).bestSize < (pass c).totalBytes) := by
  unfold bestLoop
  rcases foldl_bestStep_first_min pass compTable hdata with
    hnone | ⟨pre, post, hsplit, hb, ht, hpre, hpost⟩
  · exact Or.inl hnone
  · right
    refine ⟨hb, ht, fun c hc hcc => ?_, pre, post, hsplit, hpre⟩
    rw [hsplit] at hc
    rcases List.mem_append.mp hc with hc | hc
    · exact le_of_lt (hpre c hc hcc)
    · rcases List.mem_cons.mp hc with hc | hc
      · rw [hc, ht]
      · exact hpost c hc hcc

/-- C16 (witness): in `passMixed` the counted candidates are `None` (40 bytes)
and `RLE8` (30 bytes); the loop records `RLE8` with 30 bytes. -/
theorem bestLoop_first_minimum_witness :
    bestLoop passMixed compTable = { bestSize := 30, bestComp := COMPRESS_RLE8 }
      ∧ (((∀ c ∈ compTable, (passMixed c).counted = false)
            ∧ bestLoop passMixed compTable = { bestSize := 0, bestComp := COMPRESS_None })
          ∨ ((passMixed (bestLoop passMixed compTable).bestComp).counted = true
            ∧ (passMixed (bestLoop passMixed compTable).bestComp).totalBytes
                = (bestLoop passMixed compTable).bestSize
            ∧ (∀ c ∈ compTable, (passMixed c).counted = true →
                (bestLoop passMixed compTable).bestSize ≤ (passMixed c).totalBytes)
            ∧ ∃ pre post,
                compTable = pre ++ (bestLoop passMixed compTable).bestComp :: post
                ∧ ∀ c ∈ pre, (passMixed c).counted = true →
                    (bestLoop passMixed compTable).bestSize < (passMixed c).totalBytes)) :=
  ⟨by decide, bestLoop_first_minimum passMixed (by decide)⟩

/-- C17: the compressor chosen by the automatic selection is a fixed point of
the compressor validation: validating the parameters left by the selection
changes nothing, so the choice is neither demoted to `None` nor promoted. This
holds for every size, transparency flag and colour depth, 1, 2, 4 and 8
included. -/
theorem autoCompress_fixed_by_validation (param : ExportParameters) :
    validateCompressor (autoCompress param) = autoCompress param := by
  rw [validateCompressor_unfold]
  obtain ⟨_, _, _, _, _, sx, sy, _, _, bpc, tr, _, _, c, _, _, _⟩ := param
  unfold autoCompress
  simp only
  split_ifs <;> simp_all [validatedSpec, Compressor.isCrop, Compressor.isRLE]

/-- C18: for `-bpc 4 -palcount 20 -compress best` the two benchmark passes hand
a palette count of 20 to `ParseImage`, and the final export pass hands 15: the
benchmark runs before the palette count is validated. -/
theorem best_benchmarks_unvalidated_palCount :
    (main sampleEnv (.parsed argsBestTwentyColors)).trace.map MainEvent.palCount
        = [some 20, some 20, some 15]
      ∧ (main sampleEnv (.parsed argsBestTwentyColors)).trace.map MainEvent.isFinalExport
        = [false, false, true]
      ∧ (main sampleEnv (.parsed argsBestTwentyColors)).exitCode = 0 := by
  decide

/-- C19: the ten compressor variants have pairwise distinct values, and for
each variant the test against `COMPRESS_Crop_Mask` is non-zero exactly for the
six crop and crop-line variants, the test against `COMPRESS_CropLine_Mask`
exactly for the three crop-line variants, and the test against
`COMPRESS_RLE_Mask` exactly for `RLE0`, `RLE4`, `RLE8`. -/
theorem compressor_masks_classify :
    (∀ a b : Compressor, a.val = b.val → a = b)
      ∧ ∀ c : Compressor,
          ((c.val &&& COMPRESS_Crop_Mask ≠ 0) ↔ c.isCrop = true)
          ∧ ((c.val &&& COMPRESS_CropLine_Mask ≠ 0) ↔ c.isCropLine = true)
          ∧ ((c.val &&& COMPRESS_RLE_Mask ≠ 0) ↔ c.isRLE = true) := by
  constructor
  · intro a b
    cases a <;> cases b <;> decide
  · intro c
    cases c <;> decide

/-- C20: for every 16-bit value `a`, `ExporterBin::Write1WordLine` appends
exactly two bytes `b0`, `b1` with `b0 + 256 * b1 = a`, low byte first; and
`Write2WordsLine(a, b)` leaves the buffer and the byte counter as
`Write1WordLine(a)` followed by `Write1WordLine(b)` leaves them. -/
theorem ExporterBin_words_little_endian (e : ExporterBin) (a b : Nat)
    (comment c1 c2 : String) (ha : a < 2 ^ 16) :
    (∃ b0 b1, b0 < 256 ∧ b1 < 256
        ∧ (e.Write1WordLine a comment).outData = e.outData ++ [b0, b1]
        ∧ b0 + 256 * b1 = a)
      ∧ (e.Write2WordsLine a b comment).outData
          = ((e.Write1WordLine a c1).Write1WordLine b c2).outData
      ∧ (e.Write2WordsLine a b comment).TotalBytes
          = ((e.Write1WordLine a c1).Write1WordLine b c2).TotalBytes := by
  refine ⟨⟨a % 256, a / 256, by omega, by omega, ?_, by omega⟩, ?_, ?_⟩
  · have hu : u16 a = a := Nat.mod_eq_of_lt ha
    simp only [ExporterBin.Write1WordLine, low_byte_eq, high_byte_eq, List.append_assoc,
      List.singleton_append]
    rw [hu]
  · simp [ExporterBin.Write2WordsLine, ExporterBin.Write1WordLine]
  · simp only [ExporterBin.Write2WordsLine, ExporterBin.Write1WordLine, u32]
    omega

/-- C20 (witness): the word `0x1234` is written as `0x34, 0x12`. -/
theorem ExporterBin_words_little_endian_witness :
    ((ExporterBin.create DATA_Hexa sampleParam).Write1WordLine 0x1234 "").outData
        = [0x34, 0x12]
      ∧ ((ExporterBin.create DATA_Hexa sampleParam).Write2WordsLine 0x1234 0xBEEF "").outData
        = (((ExporterBin.create DATA_Hexa sampleParam).Write1WordLine 0x1234 "").Write1WordLine
            0xBEEF "").outData :=
  ⟨by decide,
   (ExporterBin_words_little_endian (ExporterBin.create DATA_Hexa sampleParam) 0x1234 0xBEEF
      "" "" "" (by decide)).2.1⟩

end MSXImage
